import Mathlib

/-!
Verification development for the DocuLens AI pipeline engine
(`app/core/task.py`, `app/pipelines/doculens_pipeline.py`,
`app/pipelines/registry.py`, `app/api/event_schema.py`,
`app/doc_utils/chunking.py`, `app/doc_utils/embedding.py`,
`app/config/settings.py`).

The Python code is shallowly embedded: JSON-like dictionary values become
the inductive `Val`; Python dictionaries become insertion-ordered
association lists (`insertA` updates an existing key in place and appends
new keys, matching `dict` assignment; `popA` matches `dict.pop`); nodes
become functions `TaskContext → Except PyErr TaskContext`, with every
external collaborator (HTTP download, Docling conversion, the HybridChunker,
the OpenAI embedding client, the vector store, the LLM completion client)
supplied as an explicit oracle argument.
-/

set_option autoImplicit false

namespace Doculens

/-- JSON-like values, the payloads stored in `TaskContext.nodes` and
`TaskContext.metadata` by the pipeline nodes. -/
inductive Val where
  | null
  | str (s : String)
  | int (n : Int)
  | bool (b : Bool)
  | list (xs : List Val)
  | dict (entries : List (String × Val))
deriving Repr

/-- Lookup in an insertion-ordered association list (Python `dict.get`). -/
def lookupA {α : Type} (m : List (String × α)) (k : String) : Option α :=
  match m with
  | [] => none
  | (k0, v) :: rest => if k0 = k then some v else lookupA rest k

/-- Python `dict` assignment: update the existing key in place, otherwise
append the new key at the end (insertion order preserved). -/
def insertA {α : Type} (m : List (String × α)) (k : String) (v : α) :
    List (String × α) :=
  match m with
  | [] => [(k, v)]
  | (k0, v0) :: rest =>
      if k0 = k then (k, v) :: rest else (k0, v0) :: insertA rest k v

/-- Python `dict.pop(k, None)`: remove the key `k`. -/
def popA {α : Type} (m : List (String × α)) (k : String) : List (String × α) :=
  m.filter (fun p => p.1 != k)

/-- Truthiness of a Python optional string (`None` and `""` are falsy). -/
def truthyS (o : Option String) : Bool :=
  match o with
  | none => false
  | some s => !s.isEmpty

/-- Python `a or b` on optional strings. -/
def orS (a b : Option String) : Option String :=
  if truthyS a then a else b

/-- Python `a or d` where `a : Optional[int]` and `d` is an int default
(`0` is falsy). -/
def orI (a : Option Int) (d : Int) : Int :=
  match a with
  | some n => if n ≠ 0 then n else d
  | none => d

/-- Optional string as a `Val` (`None` dumps to `null`). -/
def optStrVal (o : Option String) : Val :=
  match o with
  | none => Val.null
  | some s => Val.str s

/-- Optional int as a `Val`. -/
def optIntVal (o : Option Int) : Val :=
  match o with
  | none => Val.null
  | some n => Val.int n

/-- Optional dictionary as a `Val`. -/
def optDictVal (o : Option (List (String × Val))) : Val :=
  match o with
  | none => Val.null
  | some d => Val.dict d

/-! ### Events (`app/api/event_schema.py`) -/

/-- `DocumentUploadEvent`: `filename` and `file_url` are required strings,
`doc_type` is optional, `metadata` is a required dictionary. -/
structure DocumentUploadEvent where
  filename : String
  file_url : String
  doc_type : Option String
  metadata : List (String × Val)
deriving Repr

/-- `SearchQueryEvent`: query plus optional filters and limit. -/
structure SearchQueryEvent where
  query : String
  filters : Option (List (String × Val))
  limit : Option Int
deriving Repr

/-- Field data of `DocumentSummaryEvent` before its model validator runs. -/
structure DocumentSummaryEventData where
  document_id : Option String
  filename : Option String
  doc_type : Option String
  chunks_limit : Option Int
deriving Repr

/-- `QAQueryEvent`: query plus optional `top_k` and filters. -/
structure QAQueryEvent where
  query : String
  top_k : Option Int
  filters : Option (List (String × Val))
deriving Repr

/-- The `EventSchema` union; the constructor tag plays the role of the
`Literal` `event_type` discriminator. -/
inductive EventSchema where
  | documentUpload (e : DocumentUploadEvent)
  | documentClassification (document_id text : String)
      (metadata : List (String × Val))
  | informationExtraction (document_id doc_type text : String)
      (fields : List String)
  | searchQuery (e : SearchQueryEvent)
  | documentRouting (document_id target_department reason : String)
  | documentSummary (e : DocumentSummaryEventData)
  | qaQuery (e : QAQueryEvent)
deriving Repr

/-- The `event_type` discriminator string of an event. -/
def EventSchema.eventType : EventSchema → String
  | .documentUpload _ => "document_upload"
  | .documentClassification _ _ _ => "document_classification"
  | .informationExtraction _ _ _ _ => "information_extraction"
  | .searchQuery _ => "search_query"
  | .documentRouting _ _ _ => "document_routing"
  | .documentSummary _ => "document_summary"
  | .qaQuery _ => "qa_query"

/-- Python exception classes raised by the embedded code. -/
inductive PyErr where
  | valueError (msg : String)
  | fileNotFoundError (msg : String)
  | validationError (msg : String)
  | typeError (msg : String)
  | attributeError (msg : String)
  | httpError (msg : String)
deriving Repr

/-- `DocumentSummaryEvent.validate_identifier`: pydantic `model_validator`
that rejects construction when both `document_id` and `filename` are falsy
(absent or empty). -/
def mkDocumentSummaryEvent (d : DocumentSummaryEventData) :
    Except PyErr DocumentSummaryEventData :=
  if !truthyS d.document_id && !truthyS d.filename then
    Except.error (PyErr.validationError
      "Provide at least document_id or filename for document_summary events.")
  else
    Except.ok d

/-! ### TaskContext (`app/core/task.py`) -/

/-- Docling structured document held in `state` between extraction and
chunking; only its page list is observed by the pipeline. -/
structure DoclingDoc where
  pages : List Nat
deriving Repr

/-- Per-chunk metadata exposed by a Docling chunk (`chunk.meta`). -/
structure ChunkMeta where
  originFilename : Option String
  pageNumbers : List Int
  headings : List String
deriving Repr

/-- A Docling text chunk produced by the chunking service. -/
structure Chunk where
  text : String
  meta : ChunkMeta
deriving Repr

/-- A stored chunk's `chunk_index` metadata value, which the vector store
may return as an int or as a string. -/
inductive ChunkIdx where
  | intIdx (n : Int)
  | strIdx (s : String)
deriving Repr

/-- Metadata of a chunk record returned by the vector store; fields the
pipeline reads (`document_id`, `filename`, `original_filename`, `doc_type`,
`reference`, `chunk_index`), each possibly absent. -/
structure RecMeta where
  document_id : Option String := none
  filename : Option String := none
  original_filename : Option String := none
  doc_type : Option String := none
  reference : Option String := none
  chunk_index : Option ChunkIdx := none
deriving Repr

/-- A chunk record returned by `VectorStore.fetch_document_chunks` /
`semantic_search_docling`. -/
structure ChunkRecord where
  id : String
  metadata : RecMeta
  contents : String
deriving Repr

/-- `DocumentSummaryNode.ContextModel`: pydantic model built in
`get_context` (its `document_id` field is a required `str`). -/
structure SummaryContext where
  document_id : String
  doc_type : Option String
  filename : Option String
  chunk_texts : List String
deriving Repr

/-- `QAQueryNode.RetrievedChunk`. -/
structure RetrievedChunk where
  reference : String
  document_id : Option String
  filename : Option String
  chunk_index : Option Int
  text : String
deriving Repr

/-- Values held in `TaskContext.state`: the ephemeral in-flight artifacts
the nodes store there. -/
inductive StateV where
  | doclingDoc (d : DoclingDoc)
  | chunks (cs : List Chunk)
  | str (s : String)
  | summaryChunks (rs : List ChunkRecord)
  | summaryCtx (c : SummaryContext)
  | qaChunks (cs : List RetrievedChunk)
deriving Repr

/-- `TaskContext`: event, per-node results, cross-node metadata, and the
ephemeral `state` mapping. -/
structure TaskContext where
  event : EventSchema
  nodes : List (String × Val)
  metadata : List (String × Val)
  state : List (String × StateV)
deriving Repr

/-- Dump an event to a plain value, mirroring pydantic `model_dump` on the
`EventSchema` union members. -/
def dumpEvent : EventSchema → Val
  | .documentUpload e => Val.dict
      [("event_type", Val.str "document_upload"),
       ("filename", Val.str e.filename),
       ("file_url", Val.str e.file_url),
       ("doc_type", optStrVal e.doc_type),
       ("metadata", Val.dict e.metadata)]
  | .documentClassification did text md => Val.dict
      [("event_type", Val.str "document_classification"),
       ("document_id", Val.str did),
       ("text", Val.str text),
       ("metadata", Val.dict md)]
  | .informationExtraction did dt text fields => Val.dict
      [("event_type", Val.str "information_extraction"),
       ("document_id", Val.str did),
       ("doc_type", Val.str dt),
       ("text", Val.str text),
       ("fields", Val.list (fields.map Val.str))]
  | .searchQuery e => Val.dict
      [("event_type", Val.str "search_query"),
       ("query", Val.str e.query),
       ("filters", optDictVal e.filters),
       ("limit", optIntVal e.limit)]
  | .documentRouting did dept reason => Val.dict
      [("event_type", Val.str "document_routing"),
       ("document_id", Val.str did),
       ("target_department", Val.str dept),
       ("reason", Val.str reason)]
  | .documentSummary e => Val.dict
      [("event_type", Val.str "document_summary"),
       ("document_id", optStrVal e.document_id),
       ("filename", optStrVal e.filename),
       ("doc_type", optStrVal e.doc_type),
       ("chunks_limit", optIntVal e.chunks_limit)]
  | .qaQuery e => Val.dict
      [("event_type", Val.str "qa_query"),
       ("query", Val.str e.query),
       ("top_k", optIntVal e.top_k),
       ("filters", optDictVal e.filters)]

/-- The declared pydantic fields of `TaskContext` with their `exclude`
flags: `state` carries `exclude=True`, the other three do not. -/
def taskContextFields : List (String × Bool) :=
  [("event", false), ("nodes", false), ("metadata", false), ("state", true)]

/-- Value of a non-excluded `TaskContext` field under `model_dump`. -/
def dumpField (ctx : TaskContext) (k : String) : Val :=
  if k = "event" then dumpEvent ctx.event
  else if k = "nodes" then Val.dict ctx.nodes
  else if k = "metadata" then Val.dict ctx.metadata
  else Val.null

/-- `TaskContext.model_dump`: serialize every declared field whose
`exclude` flag is off, in declaration order. -/
def modelDump (ctx : TaskContext) : List (String × Val) :=
  (taskContextFields.filter (fun p => !p.2)).map (fun p => (p.1, dumpField ctx p.1))

/-! ### PipelineRegistry (`app/pipelines/registry.py`) -/

/-- The pipeline classes registered in `PipelineRegistry.pipelines`. -/
inductive PipelineType where
  | document
  | classification
  | extraction
  | routing
  | search
  | summary
  | qa
deriving Repr, DecidableEq

/-- `PipelineRegistry.pipelines`: the registry mapping, in declaration
order. -/
def registryPipelines : List (String × PipelineType) :=
  [("default", PipelineType.document),
   ("document_upload", PipelineType.document),
   ("document_classification", PipelineType.classification),
   ("information_extraction", PipelineType.extraction),
   ("document_routing", PipelineType.routing),
   ("search_query", PipelineType.search),
   ("document_summary", PipelineType.summary),
   ("qa_query", PipelineType.qa)]

/-- `PipelineRegistry.get_pipeline_type` on `getattr(event, "event_type",
None)`; the returned flag records whether the unknown-type warning was
logged. -/
def getPipelineType (eventType : Option String) : String × Bool :=
  match eventType with
  | some s => if (lookupA registryPipelines s).isSome then (s, false)
              else ("default", true)
  | none => ("default", true)

/-! ### Ingestion nodes (`app/pipelines/doculens_pipeline.py`) -/

/-- Python truthiness of a `Val`. -/
def valTruthy : Val → Bool
  | .null => false
  | .str s => !s.isEmpty
  | .int n => n != 0
  | .bool b => b
  | .list xs => !xs.isEmpty
  | .dict es => !es.isEmpty

/-- Whether a `Val` is Python `None`. -/
def Val.isNull : Val → Bool
  | .null => true
  | _ => false

/-- Python `str()` of a value, as interpolated into an f-string. Scalar
cases are exact; container values render through `repr`, abstracted here
as a fixed marker — no pipeline path interpolates a container value. -/
def pyStr : Val → String
  | .null => "None"
  | .str s => s
  | .int n => toString n
  | .bool b => if b then "True" else "False"
  | .list _ => "[repr]"
  | .dict _ => "\x7brepr\x7d"

/-- `pathlib.Path(s).name`: the final path component. -/
def pathName (s : String) : String :=
  (s.splitOn "/").getLastD s

/-- `INGESTION_DIR`: `app/data/ingestion` relative to the repository. -/
def ingestionDir : String := "app/data/ingestion"

/-- `_require_document_upload_event`. -/
def requireDocumentUploadEvent (e : EventSchema) :
    Except PyErr DocumentUploadEvent :=
  match e with
  | .documentUpload ev => Except.ok ev
  | _ => Except.error (PyErr.valueError
      "DoculensDocumentPipeline expects a DocumentUploadEvent with event_type document_upload.")

/-- `task_context.metadata.get("document", \x7b\x7d).get("id", uuid4().hex)` in
`ExtractionNode.process`: a non-dictionary `document` value has no `.get`
and raises `AttributeError`. -/
def extractionDocId (metadata : List (String × Val)) (freshId : String) :
    Except PyErr Val :=
  match lookupA metadata "document" with
  | none => Except.ok (Val.str freshId)
  | some (Val.dict d) => Except.ok ((lookupA d "id").getD (Val.str freshId))
  | some _ => Except.error (PyErr.attributeError "object has no attribute get")

/-- External collaborators of `ExtractionNode.process`: the fresh
`uuid4().hex`, the HTTP download outcome, local-file existence,
`Path.resolve`, and `extract_docling_document`. -/
structure ExtractionOracle where
  freshId : String
  downloadOk : Bool
  fileExists : Bool
  resolvedPath : String → String
  extractResult : String → Option DoclingDoc

/-- `ExtractionNode.process`. -/
def extractionProcess (o : ExtractionOracle) (ctx : TaskContext) :
    Except PyErr TaskContext := do
  let event ← requireDocumentUploadEvent ctx.event
  let documentId ← extractionDocId ctx.metadata o.freshId
  let filename := pathName
    (if !event.filename.isEmpty then event.filename else pyStr documentId ++ ".bin")
  let localPath ←
    if !event.file_url.isEmpty then
      if o.downloadOk then
        pure (ingestionDir ++ "/" ++ pyStr documentId ++ "_" ++ filename)
      else Except.error (PyErr.httpError "document download failed")
    else
      if o.fileExists then pure (o.resolvedPath event.filename)
      else Except.error (PyErr.fileNotFoundError
        "DocumentUploadEvent filename not found and no file_url provided.")
  let doclingDoc ←
    match o.extractResult localPath with
    | some d => pure d
    | none => Except.error (PyErr.valueError
        "Docling conversion failed to produce a document.")
  let pageCount := Val.int (Int.ofNat doclingDoc.pages.length)
  let st := insertA (insertA ctx.state "docling_doc" (StateV.doclingDoc doclingDoc))
      "local_path" (StateV.str localPath)
  let md := insertA ctx.metadata "document" (Val.dict
    [("id", documentId),
     ("original_filename", Val.str filename),
     ("source_url", Val.str event.file_url),
     ("local_path", Val.str localPath),
     ("ingest_source", Val.str event.filename),
     ("page_count", pageCount),
     ("metadata", Val.dict event.metadata),
     ("doc_type", optStrVal event.doc_type)])
  let nodes := insertA ctx.nodes "ExtractionNode" (Val.dict
    [("document_id", documentId),
     ("local_path", Val.str localPath),
     ("page_count", pageCount)])
  Except.ok ⟨ctx.event, nodes, md, st⟩

/-- `ChunkingNode.SAMPLE_PREVIEWS`. -/
def chunkingSamplePreviews : Nat := 5

/-- Python `" ".join(text.split())`: collapse whitespace runs. -/
def normalizeWs (s : String) : String :=
  String.intercalate " " ((s.split (fun c => c.isWhitespace)).filter
    (fun t => !t.isEmpty))

/-- `ChunkingNode._render_preview`: collapse whitespace and cut to 200
characters. -/
def renderPreview (c : Chunk) : String :=
  (normalizeWs c.text).take 200

/-- `chunk_document` (`app/doc_utils/chunking.py`): raises on a null
document, otherwise delegates to the external `HybridChunker` (the
`chunker` oracle). -/
def chunkDocument (chunker : DoclingDoc → List Chunk)
    (doc : Option DoclingDoc) : Except PyErr (List Chunk) :=
  match doc with
  | none => Except.error (PyErr.valueError
      "Cannot chunk a null document. Ensure extraction succeeded.")
  | some d => Except.ok (chunker d)

/-- `ChunkingNode.process`. -/
def chunkingProcess (chunker : DoclingDoc → List Chunk) (ctx : TaskContext) :
    Except PyErr TaskContext := do
  let doc : Option DoclingDoc :=
    match lookupA ctx.state "docling_doc" with
    | some (StateV.doclingDoc d) => some d
    | _ => none
  let chunks ← chunkDocument chunker doc
  let st := insertA ctx.state "chunks" (StateV.chunks chunks)
  let chunkCount := chunks.length
  let previews := (chunks.take chunkingSamplePreviews).enum.map
    (fun p => Val.dict
      [("index", Val.int (Int.ofNat p.1)),
       ("preview", Val.str (renderPreview p.2))])
  let md ←
    match lookupA ctx.metadata "document" with
    | some (Val.dict d) =>
        Except.ok (insertA ctx.metadata "document"
          (Val.dict (insertA d "chunk_count" (Val.int (Int.ofNat chunkCount)))))
    | none => Except.ok ctx.metadata
    | some _ => Except.error (PyErr.typeError
        "object does not support item assignment")
  let nodes := insertA ctx.nodes "ChunkingNode" (Val.dict
    [("chunk_count", Val.int (Int.ofNat chunkCount)),
     ("sample_previews", Val.list previews)])
  Except.ok ⟨ctx.event, nodes, md, st⟩

/-- `MAX_TOKENS` context limit shared by chunking and embedding. -/
def maxTokens : Nat := 8191

/-- `_normalize_text` (`app/doc_utils/embedding.py`). -/
def normalizeText (t : String) : String :=
  if t.isEmpty then "" else t.trim

/-- The summary dictionary built per embedded chunk by
`embed_and_upsert_chunks`. -/
structure ChunkSummary where
  id : String
  preview : String
  token_count : Val
  page_numbers : Val
  document_id : Val
  doc_type : Val
  filename : Val
deriving Repr

/-- External collaborators of `EmbeddingNode.process` and
`embed_and_upsert_chunks`: the fresh `uuid4().hex`, the embedding API
outcome, the per-index `uuid_from_time` record ids, the tokenizer
truncation and token count, and `str(chunk)` for text-less chunks. -/
structure EmbedOracle where
  freshId : String
  embedOk : Bool
  recordId : Nat → String
  prepare : String → String
  tokens : String → Nat
  chunkRepr : Chunk → String

/-- `_extract_chunk_text`: first truthy of the text attributes, else
`str(chunk)`. -/
def extractChunkText (o : EmbedOracle) (c : Chunk) : String :=
  if !c.text.isEmpty then c.text else o.chunkRepr c

/-- `_extract_metadata`: the per-chunk metadata dictionary upserted with
each embedding. -/
def extractMetadata (c : Chunk) (documentId : Val) (chunkIndex : Nat)
    (tokenCount : Nat) (docMeta : List (String × Val)) :
    List (String × Val) :=
  let pages := c.meta.pageNumbers.mergeSort (fun a b => a ≤ b)
  let base : List (String × Val) :=
    [("filename", optStrVal c.meta.originFilename),
     ("page_numbers",
        if pages.isEmpty then Val.null else Val.list (pages.map Val.int)),
     ("title",
        match c.meta.headings with
        | [] => Val.null
        | h :: _ => Val.str h),
     ("chunk_index", Val.int (Int.ofNat chunkIndex)),
     ("token_count", Val.int (Int.ofNat tokenCount))]
  let base1 :=
    if valTruthy documentId then insertA base "document_id" documentId else base
  docMeta.foldl
    (fun m kv => if !kv.2.isNull then insertA m kv.1 kv.2 else m) base1

/-- One entry of the list returned by `embed_and_upsert_chunks`. -/
def mkChunkSummary (o : EmbedOracle) (documentId : Val)
    (docMeta : List (String × Val)) (i : Nat) (c : Chunk) : ChunkSummary :=
  let text := o.prepare (normalizeText (extractChunkText o c))
  let md := extractMetadata c documentId i (o.tokens text) docMeta
  ⟨o.recordId i, text.take 160,
   (lookupA md "token_count").getD Val.null,
   (lookupA md "page_numbers").getD Val.null,
   (lookupA md "document_id").getD Val.null,
   (lookupA md "doc_type").getD Val.null,
   (lookupA md "filename").getD Val.null⟩

/-- `embed_and_upsert_chunks` (`app/doc_utils/embedding.py`): empty input
returns an empty summary list without any external call; otherwise the
embedding API is invoked and one summary per chunk is produced, with
record ids generated per chunk index. -/
def embedAndUpsertChunks (o : EmbedOracle) (chunks : List Chunk)
    (documentId : Val) (docMeta : List (String × Val)) :
    Except PyErr (List ChunkSummary) :=
  if chunks.isEmpty then Except.ok []
  else if !o.embedOk then Except.error (PyErr.httpError "embedding call failed")
  else Except.ok (chunks.enum.map
    (fun p => mkChunkSummary o documentId docMeta p.1 p.2))

/-- `EmbeddingNode.process`. -/
def embeddingProcess (o : EmbedOracle) (ctx : TaskContext) :
    Except PyErr TaskContext := do
  let chunks : List Chunk :=
    match lookupA ctx.state "chunks" with
    | some (StateV.chunks cs) => cs
    | _ => []
  let dm ←
    match lookupA ctx.metadata "document" with
    | some (Val.dict d) => Except.ok d
    | none => Except.ok ([] : List (String × Val))
    | some _ => Except.error (PyErr.attributeError "object has no attribute get")
  let documentId :=
    match lookupA dm "id" with
    | some v => if valTruthy v then v else Val.str o.freshId
    | none => Val.str o.freshId
  let dm1 := insertA dm "id" documentId
  let summaries ← embedAndUpsertChunks o chunks documentId
    [("doc_type", (lookupA dm1 "doc_type").getD Val.null),
     ("original_filename", (lookupA dm1 "original_filename").getD Val.null)]
  let chunkIds := summaries.map (fun s => s.id)
  let preview := chunkIds.take 20
  let dm2 := insertA dm1 "vector_ids" (Val.list (chunkIds.map Val.str))
  let dm3 := insertA dm2 "embedded_chunk_count"
    (Val.int (Int.ofNat chunkIds.length))
  let md := insertA ctx.metadata "document" (Val.dict dm3)
  let nodes := insertA ctx.nodes "EmbeddingNode" (Val.dict
    [("embedded_chunks", Val.int (Int.ofNat chunkIds.length)),
     ("vector_ids", Val.list (preview.map Val.str)),
     ("vector_ids_truncated", Val.bool (preview.length < chunkIds.length))])
  let st := popA (popA ctx.state "chunks") "docling_doc"
  Except.ok ⟨ctx.event, nodes, md, st⟩

/-- Modelled from the spec: the Pipeline execution engine
(`app/core/pipeline.py`, not in `src/`) "executes nodes beginning at the
start node, following declared connections, invoking process on each
reached node in order", with the `TaskContext` "created once per pipeline
run (wrapping an Event)"; node results are keyed by the node class name
(`node_name`, `app/core/base.py`, confirmed by
`tests/test_semantic_search_node.py`). The declared chain of
`DoculensDocumentPipeline` is Extraction → Chunking → Embedding. -/
def runDoculensDocumentPipeline (oE : ExtractionOracle)
    (chunker : DoclingDoc → List Chunk) (oM : EmbedOracle)
    (event : EventSchema) : Except PyErr TaskContext := do
  let ctx1 ← extractionProcess oE ⟨event, [], [], []⟩
  let ctx2 ← chunkingProcess chunker ctx1
  embeddingProcess oM ctx2

/-! ### Settings (`app/config/settings.py`) -/

/-- The configurable limits of `Settings`; pydantic enforces `ge=1` on all
of them, so they are naturals (theorems quantify over arbitrary values). -/
structure Settings where
  summary_chunk_limit : Nat := 12
  qa_top_k : Nat := 5
  search_result_limit : Nat := 10
  search_preview_limit : Nat := 5
  chunk_preview_limit : Nat := 25
deriving Repr

/-- The default `Settings` values. -/
def defaultSettings : Settings := {}

/-! ### SemanticSearchNode -/

/-- `_require_search_query_event`. -/
def requireSearchQueryEvent (e : EventSchema) :
    Except PyErr SearchQueryEvent :=
  match e with
  | .searchQuery ev => Except.ok ev
  | _ => Except.error (PyErr.valueError
      "DoculensSearchPipeline expects a SearchQueryEvent with event_type search_query.")

/-- `SemanticSearchNode.process`; `search` is the external
`semantic_search_docling` collaborator, a function of the computed limit
(the query and filters are fixed by the event). -/
def searchProcess (settings : Settings) (search : Int → List Val)
    (ctx : TaskContext) : Except PyErr TaskContext := do
  let event ← requireSearchQueryEvent ctx.event
  let searchLimit := orI event.limit (Int.ofNat settings.search_result_limit)
  let results := search searchLimit
  let preview := results.take settings.search_preview_limit
  let md := insertA ctx.metadata "search" (Val.dict
    [("query", Val.str event.query),
     ("filters", optDictVal event.filters),
     ("limit", Val.int searchLimit),
     ("results", Val.list results)])
  let nodes := insertA ctx.nodes "SemanticSearchNode" (Val.dict
    [("query", Val.str event.query),
     ("filters", optDictVal event.filters),
     ("result_count", Val.int (Int.ofNat results.length)),
     ("preview", Val.list preview),
     ("results_truncated", Val.bool (preview.length < results.length)),
     ("limit", Val.int searchLimit)])
  Except.ok ⟨ctx.event, nodes, md, ctx.state⟩

/-! ### LLM node plumbing (`DoculensLLMNode.process`) -/

/-- The node result written by `DoculensLLMNode.process` before
`after_completion` runs: the dumped response, the raw completion model
name, and the usage payload when present. -/
def llmNodeResult (resultVal : Val) (rawModel : Option String)
    (usage : Option Val) : Val :=
  Val.dict ([("result", resultVal), ("model", optStrVal rawModel)] ++
    (match usage with
     | none => []
     | some u => [("usage", u)]))

/-! ### DocumentSummaryNode -/

/-- `_require_document_summary_event`. -/
def requireDocumentSummaryEvent (e : EventSchema) :
    Except PyErr DocumentSummaryEventData :=
  match e with
  | .documentSummary ev => Except.ok ev
  | _ => Except.error (PyErr.valueError
      "DoculensSummaryPipeline expects a DocumentSummaryEvent with event_type document_summary.")

/-- `DocumentSummaryNode.ResponseModel`. -/
structure SummaryResponse where
  summary : String
  bullet_points : List String
  next_steps : Option (List String)
deriving Repr

/-- Optional string list as a `Val`. -/
def optStrListVal (o : Option (List String)) : Val :=
  match o with
  | none => Val.null
  | some l => Val.list (l.map Val.str)

/-- `model_dump` of a `SummaryResponse`, as an entry list. -/
def dumpSummaryResponseEntries (r : SummaryResponse) : List (String × Val) :=
  [("summary", Val.str r.summary),
   ("bullet_points", Val.list (r.bullet_points.map Val.str)),
   ("next_steps", optStrListVal r.next_steps)]

/-- External collaborators of `DocumentSummaryNode`: the vector store
fetch result and the LLM completion (`none` models an API failure);
`rawModel` and `usage` mirror the raw completion attributes. -/
structure SummaryOracle where
  fetched : List ChunkRecord
  llmResponse : Option SummaryResponse
  rawModel : Option String
  usage : Option Val

/-- `dict.setdefault`: keep an existing key, otherwise append it. -/
def setdefaultA {α : Type} (m : List (String × α)) (k : String) (v : α) :
    List (String × α) :=
  if (lookupA m k).isSome then m else m ++ [(k, v)]

/-- `DocumentSummaryNode.get_context`: fails on an empty fetch, resolves
the document id, type and filename by Python `or` chains, builds the
pydantic `ContextModel` (whose `document_id` is a required `str`, so an
unresolvable id fails validation), and stashes the chunks and context in
`state`. -/
def summaryGetContext (o : SummaryOracle) (ctx : TaskContext) :
    Except PyErr (SummaryContext × TaskContext) := do
  let event ← requireDocumentSummaryEvent ctx.event
  match o.fetched with
  | [] => Except.error (PyErr.valueError
      "No chunks found for requested document; run ingestion first.")
  | c0 :: rest =>
    match orS event.document_id c0.metadata.document_id with
    | none => Except.error (PyErr.validationError
        "document_id: input should be a valid string")
    | some did =>
      let context : SummaryContext :=
        ⟨did,
         orS event.doc_type c0.metadata.doc_type,
         orS event.filename
           (orS c0.metadata.original_filename c0.metadata.filename),
         (c0 :: rest).map (fun e => e.contents)⟩
      let st := insertA
        (insertA ctx.state "summary_chunks" (StateV.summaryChunks (c0 :: rest)))
        "summary_context" (StateV.summaryCtx context)
      Except.ok (context, ⟨ctx.event, ctx.nodes, ctx.metadata, st⟩)

/-- Python `str(x).isdigit()` over the ASCII digits. -/
def pyIsDigit (s : String) : Bool :=
  !s.data.isEmpty && s.data.all (fun c => c.isDigit)

/-- Python `int(s)` on an all-digit string. -/
def strToNat (s : String) : Nat :=
  s.data.foldl (fun n c => n * 10 + (c.toNat - 48)) 0

/-- `str()` of an optional `chunk_index` metadata value (absent reads as
the default `""`). -/
def chunkIdxStr : Option ChunkIdx → String
  | none => ""
  | some (ChunkIdx.intIdx n) => toString n
  | some (ChunkIdx.strIdx s) => s

/-- An optional `chunk_index` metadata value as a `Val`. -/
def chunkIdxVal : Option ChunkIdx → Val
  | none => Val.null
  | some (ChunkIdx.intIdx n) => Val.int n
  | some (ChunkIdx.strIdx s) => Val.str s

/-- The `chunk_index` field of a summary `source_chunks` entry:
`int(...)` when `str(...)` is all digits, the raw value otherwise. -/
def summaryChunkIdxVal (o : Option ChunkIdx) : Val :=
  if pyIsDigit (chunkIdxStr o) then
    match o with
    | some (ChunkIdx.intIdx n) => Val.int n
    | some (ChunkIdx.strIdx s) => Val.int (Int.ofNat (strToNat s))
    | none => Val.null
  else chunkIdxVal o

/-- A summary node `source_chunks` entry. -/
def summarySourceChunk (c : ChunkRecord) : Val :=
  Val.dict
    [("id", Val.str c.id),
     ("document_id", optStrVal c.metadata.document_id),
     ("chunk_index", summaryChunkIdxVal c.metadata.chunk_index)]

/-- `DocumentSummaryNode.after_completion`: pop the stashed chunks and
context, re-resolve the document id, store the summary payload into
`metadata.document_summaries` under the resolved id (sentinel `"latest"`
when no id is truthy), and overwrite the node result. -/
def summaryAfterCompletion (ctx : TaskContext) (r : SummaryResponse) :
    Except PyErr TaskContext := do
  let chunks : List ChunkRecord :=
    match lookupA ctx.state "summary_chunks" with
    | some (StateV.summaryChunks rs) => rs
    | _ => []
  let st1 := popA ctx.state "summary_chunks"
  let context : Option SummaryContext :=
    match lookupA st1 "summary_context" with
    | some (StateV.summaryCtx c) => some c
    | _ => none
  let st2 := popA st1 "summary_context"
  let documentId0 : Option String :=
    match ctx.event with
    | .documentSummary e => e.document_id
    | _ => none
  let documentId : Option String :=
    if truthyS documentId0 then documentId0
    else
      match chunks with
      | [] => documentId0
      | c0 :: _ => c0.metadata.document_id
  let payload0 := dumpSummaryResponseEntries r ++
    [("source_chunk_count", Val.int (Int.ofNat chunks.length))]
  let payload :=
    match context with
    | none => payload0
    | some c =>
        setdefaultA
          (setdefaultA
            (setdefaultA payload0 "doc_type" (optStrVal c.doc_type))
            "filename" (optStrVal c.filename))
          "document_id" (Val.str c.document_id)
  let summaries ←
    match lookupA ctx.metadata "document_summaries" with
    | some (Val.dict d) => Except.ok d
    | none => Except.ok ([] : List (String × Val))
    | some _ => Except.error (PyErr.typeError
        "object does not support item assignment")
  let key :=
    match documentId with
    | some s => if !s.isEmpty then s else "latest"
    | none => "latest"
  let md := insertA ctx.metadata "document_summaries"
    (Val.dict (insertA summaries key (Val.dict payload)))
  let nodes := insertA ctx.nodes "DocumentSummaryNode" (Val.dict
    [("summary", Val.str r.summary),
     ("bullet_points", Val.list (r.bullet_points.map Val.str)),
     ("next_steps", optStrListVal r.next_steps),
     ("source_chunks", Val.list ((chunks.take 5).map summarySourceChunk))])
  Except.ok ⟨ctx.event, nodes, md, st2⟩

/-- `DocumentSummaryNode.process` (via `DoculensLLMNode.process`):
`get_context`, then the external completion, then the pre-completion node
result, then `after_completion`. -/
def summaryProcess (o : SummaryOracle) (ctx : TaskContext) :
    Except PyErr TaskContext := do
  let (_contextModel, ctx1) ← summaryGetContext o ctx
  let r ←
    match o.llmResponse with
    | some r => pure r
    | none => Except.error (PyErr.httpError "llm completion failed")
  let nodeResult := llmNodeResult (Val.dict (dumpSummaryResponseEntries r))
    o.rawModel o.usage
  let ctx2 : TaskContext :=
    ⟨ctx1.event, insertA ctx1.nodes "DocumentSummaryNode" nodeResult,
     ctx1.metadata, ctx1.state⟩
  summaryAfterCompletion ctx2 r

/-! ### QAQueryNode -/

/-- `_require_qa_query_event`. -/
def requireQAQueryEvent (e : EventSchema) : Except PyErr QAQueryEvent :=
  match e with
  | .qaQuery ev => Except.ok ev
  | _ => Except.error (PyErr.valueError
      "DoculensQAPipeline expects a QAQueryEvent with event_type qa_query.")

/-- `QAQueryNode.ResponseModel`; `confidence` is an optional float passed
through unchanged, held abstractly as a `Val`. -/
structure QAResponse where
  answer : String
  reasoning : Option String
  confidence : Val
  citations : List String
deriving Repr

/-- `model_dump` of a `QAResponse`, as an entry list. -/
def dumpQAResponseEntries (r : QAResponse) : List (String × Val) :=
  [("answer", Val.str r.answer),
   ("reasoning", optStrVal r.reasoning),
   ("confidence", r.confidence),
   ("citations", Val.list (r.citations.map Val.str))]

/-- External collaborators of `QAQueryNode`: `semantic_search_docling` as
a function of the computed `top_k`, and the LLM completion. -/
structure QAOracle where
  search : Int → List ChunkRecord
  llmResponse : Option QAResponse
  rawModel : Option String
  usage : Option Val

/-- The integer chunk index assigned to the retrieved record at position
`idx`: a digit string converts, an int passes through, anything else
falls back to the position. -/
def qaChunkIndexInt (idx : Nat) (m : Option ChunkIdx) : Int :=
  match m with
  | some (ChunkIdx.strIdx s) =>
      if pyIsDigit s then Int.ofNat (strToNat s) else Int.ofNat idx
  | some (ChunkIdx.intIdx n) => n
  | none => Int.ofNat idx

/-- The fallback reference built when the record metadata carries no
truthy `reference`: the document id (default `doc`), `#chunk-`, and the
integer chunk index. -/
def qaFallbackRef (r : ChunkRecord) (ci : Int) : String :=
  (r.metadata.document_id.getD "doc") ++ "#chunk-" ++ toString ci

/-- The `RetrievedChunk` built from the record at position `idx` of the
search results. -/
def mkRetrievedChunk (idx : Nat) (r : ChunkRecord) : RetrievedChunk :=
  let ci := qaChunkIndexInt idx r.metadata.chunk_index
  let reference :=
    match r.metadata.reference with
    | some s => if !s.isEmpty then s else qaFallbackRef r ci
    | none => qaFallbackRef r ci
  ⟨reference, r.metadata.document_id, r.metadata.filename, some ci, r.contents⟩

/-- `QAQueryNode.get_context`: run the semantic search with the event
`top_k` (or the settings default), fail on zero matches, convert each
record to a `RetrievedChunk`, and stash them in `state`. -/
def qaGetContext (settings : Settings) (o : QAOracle) (ctx : TaskContext) :
    Except PyErr (List RetrievedChunk × TaskContext) := do
  let event ← requireQAQueryEvent ctx.event
  let topK := orI event.top_k (Int.ofNat settings.qa_top_k)
  let results := o.search topK
  if results.isEmpty then
    Except.error (PyErr.valueError
      "No semantic matches found for the supplied question. Ensure embeddings exist.")
  else
    let chunks := results.enum.map (fun p => mkRetrievedChunk p.1 p.2)
    Except.ok (chunks,
      ⟨ctx.event, ctx.nodes, ctx.metadata,
       insertA ctx.state "qa_chunks" (StateV.qaChunks chunks)⟩)

/-- A `chunk_references` entry of the QA node result. -/
def qaRefDict (c : RetrievedChunk) : Val :=
  Val.dict
    [("reference", Val.str c.reference),
     ("document_id", optStrVal c.document_id),
     ("filename", optStrVal c.filename),
     ("chunk_index", optIntVal c.chunk_index)]

/-- `QAQueryNode.after_completion`: pop the stashed chunks, write
`metadata.qa` (response dump plus `used_chunks`), and overwrite the node
result with the answer and the chunk references. -/
def qaAfterCompletion (ctx : TaskContext) (r : QAResponse) : TaskContext :=
  let chunks : List RetrievedChunk :=
    match lookupA ctx.state "qa_chunks" with
    | some (StateV.qaChunks cs) => cs
    | _ => []
  let st := popA ctx.state "qa_chunks"
  let md := insertA ctx.metadata "qa"
    (Val.dict (insertA (dumpQAResponseEntries r) "used_chunks"
      (Val.list (chunks.map (fun c => Val.str c.reference)))))
  let nodes := insertA ctx.nodes "QAQueryNode" (Val.dict
    [("answer", Val.str r.answer),
     ("reasoning", optStrVal r.reasoning),
     ("citations", Val.list (r.citations.map Val.str)),
     ("confidence", r.confidence),
     ("chunk_references", Val.list (chunks.map qaRefDict))])
  ⟨ctx.event, nodes, md, st⟩

/-- `QAQueryNode.process` (via `DoculensLLMNode.process`). -/
def qaProcess (settings : Settings) (o : QAOracle) (ctx : TaskContext) :
    Except PyErr TaskContext := do
  let (_chunks, ctx1) ← qaGetContext settings o ctx
  let r ←
    match o.llmResponse with
    | some r => pure r
    | none => Except.error (PyErr.httpError "llm completion failed")
  let nodeResult := llmNodeResult (Val.dict (dumpQAResponseEntries r))
    o.rawModel o.usage
  let ctx2 : TaskContext :=
    ⟨ctx1.event, insertA ctx1.nodes "QAQueryNode" nodeResult,
     ctx1.metadata, ctx1.state⟩
  Except.ok (qaAfterCompletion ctx2 r)

/-! ### The remaining LLM nodes (classification, extraction, routing) -/

/-- A single LLM completion outcome (`create_completion`): the parsed
response (`none` models an API failure), the raw completion model name,
and the usage payload. -/
structure LLMCall (R : Type) where
  response : Option R
  rawModel : Option String
  usage : Option Val

/-- Lift the completion outcome into `Except` (an API failure raises). -/
def llmRun {R : Type} (o : LLMCall R) : Except PyErr R :=
  match o.response with
  | some r => Except.ok r
  | none => Except.error (PyErr.httpError "llm completion failed")

/-- `_require_document_classification_event`. -/
def requireDocumentClassificationEvent (e : EventSchema) :
    Except PyErr (String × String × List (String × Val)) :=
  match e with
  | .documentClassification did text md => Except.ok (did, text, md)
  | _ => Except.error (PyErr.valueError
      "DoculensClassificationPipeline expects a DocumentClassificationEvent with event_type document_classification.")

/-- `_require_information_extraction_event`. -/
def requireInformationExtractionEvent (e : EventSchema) :
    Except PyErr (String × String × String × List String) :=
  match e with
  | .informationExtraction did dt text fields => Except.ok (did, dt, text, fields)
  | _ => Except.error (PyErr.valueError
      "DoculensExtractionPipeline expects an InformationExtractionEvent with event_type information_extraction.")

/-- `_require_document_routing_event`. -/
def requireDocumentRoutingEvent (e : EventSchema) :
    Except PyErr (String × String × String) :=
  match e with
  | .documentRouting did dept reason => Except.ok (did, dept, reason)
  | _ => Except.error (PyErr.valueError
      "DoculensRoutingPipeline expects a DocumentRoutingEvent with event_type document_routing.")

/-- `DocumentClassificationNode.ResponseModel`; `confidence` is a float
passed through unchanged, held abstractly as a `Val`. -/
structure ClassificationResponse where
  document_type : String
  confidence : Val
  reasoning : String
  tags : List String
deriving Repr

/-- `model_dump` of a `ClassificationResponse`. -/
def dumpClassificationEntries (r : ClassificationResponse) :
    List (String × Val) :=
  [("document_type", Val.str r.document_type),
   ("confidence", r.confidence),
   ("reasoning", Val.str r.reasoning),
   ("tags", Val.list (r.tags.map Val.str))]

/-- `DocumentClassificationNode.process` (via `DoculensLLMNode.process`):
validate the event, complete, record the node result, and write
`metadata.classification`. -/
def classificationProcess (o : LLMCall ClassificationResponse)
    (ctx : TaskContext) : Except PyErr TaskContext := do
  let _event ← requireDocumentClassificationEvent ctx.event
  let r ← llmRun o
  let nodes := insertA ctx.nodes "DocumentClassificationNode"
    (llmNodeResult (Val.dict (dumpClassificationEntries r)) o.rawModel o.usage)
  let md := insertA ctx.metadata "classification"
    (Val.dict (dumpClassificationEntries r))
  Except.ok ⟨ctx.event, nodes, md, ctx.state⟩

/-- `InformationExtractionNode.FieldValue` (`confidence` abstract). -/
structure FieldValue where
  name : String
  value : String
  confidence : Val
deriving Repr

/-- `InformationExtractionNode.ResponseModel`. -/
structure ExtractionResponse where
  fields : List FieldValue
  reasoning : Option String
deriving Repr

/-- `model_dump` of an `ExtractionResponse`. -/
def dumpExtractionEntries (r : ExtractionResponse) : List (String × Val) :=
  [("fields", Val.list (r.fields.map (fun f => Val.dict
      [("name", Val.str f.name),
       ("value", Val.str f.value),
       ("confidence", f.confidence)]))),
   ("reasoning", optStrVal r.reasoning)]

/-- `InformationExtractionNode.process` (via `DoculensLLMNode.process`). -/
def informationExtractionProcess (o : LLMCall ExtractionResponse)
    (ctx : TaskContext) : Except PyErr TaskContext := do
  let _event ← requireInformationExtractionEvent ctx.event
  let r ← llmRun o
  let nodes := insertA ctx.nodes "InformationExtractionNode"
    (llmNodeResult (Val.dict (dumpExtractionEntries r)) o.rawModel o.usage)
  let md := insertA ctx.metadata "extraction"
    (Val.dict (dumpExtractionEntries r))
  Except.ok ⟨ctx.event, nodes, md, ctx.state⟩

/-- `DocumentRoutingNode.ResponseModel` (`confidence` abstract). -/
structure RoutingResponse where
  assigned_department : String
  confidence : Val
  reasoning : String
  escalate : Bool
deriving Repr

/-- `model_dump` of a `RoutingResponse`. -/
def dumpRoutingEntries (r : RoutingResponse) : List (String × Val) :=
  [("assigned_department", Val.str r.assigned_department),
   ("confidence", r.confidence),
   ("reasoning", Val.str r.reasoning),
   ("escalate", Val.bool r.escalate)]

/-- `DocumentRoutingNode.get_context` metadata resolution:
`task_context.metadata.get("document") or getattr(event, "metadata",
None)` (a `DocumentRoutingEvent` has no `metadata` attribute, so the
fallback is `None`); the pydantic `ContextModel` requires an optional
dictionary, so a truthy non-dictionary value fails validation. -/
def routingAdditionalMetadata (metadata : List (String × Val)) :
    Except PyErr (Option (List (String × Val))) :=
  match lookupA metadata "document" with
  | some v =>
      if valTruthy v then
        match v with
        | Val.dict d => Except.ok (some d)
        | _ => Except.error (PyErr.validationError
            "metadata: input should be a valid dictionary")
      else Except.ok none
  | none => Except.ok none

/-- `DocumentRoutingNode.process` (via `DoculensLLMNode.process`). -/
def routingProcess (o : LLMCall RoutingResponse) (ctx : TaskContext) :
    Except PyErr TaskContext := do
  let _event ← requireDocumentRoutingEvent ctx.event
  let _additional ← routingAdditionalMetadata ctx.metadata
  let r ← llmRun o
  let nodes := insertA ctx.nodes "DocumentRoutingNode"
    (llmNodeResult (Val.dict (dumpRoutingEntries r)) o.rawModel o.usage)
  let md := insertA ctx.metadata "routing"
    (Val.dict (dumpRoutingEntries r))
  Except.ok ⟨ctx.event, nodes, md, ctx.state⟩

/-- Success test on an `Except` outcome. -/
def isOkE {ε α : Type} : Except ε α → Bool
  | Except.ok _ => true
  | Except.error _ => false

/-- C2 (part of the statement): the dumped field keys, for reuse in the
theorem statement. -/
def modelDumpKeys (ctx : TaskContext) : List String :=
  (modelDump ctx).map Prod.fst

/-- The `document_summaries` key resolved by
`DocumentSummaryNode.after_completion`: the event's `document_id` when
truthy, else the first popped chunk's metadata `document_id`, with the
sentinel `"latest"` when the result is absent or empty. -/
def summaryResolvedKey (e : DocumentSummaryEventData)
    (chunks : List ChunkRecord) : String :=
  let resolved :=
    if truthyS e.document_id then e.document_id
    else
      match chunks with
      | [] => e.document_id
      | c0 :: _ => c0.metadata.document_id
  match resolved with
  | some s => if !s.isEmpty then s else "latest"
  | none => "latest"

/-! ### Association-list lemmas -/

theorem insertA_nil {α : Type} (k : String) (v : α) :
    insertA ([] : List (String × α)) k v = [(k, v)] := rfl

theorem lookupA_insertA_self {α : Type} (m : List (String × α)) (k : String)
    (v : α) : lookupA (insertA m k v) k = some v := by
  induction m with
  | nil => simp [insertA, lookupA]
  | cons hd tl ih =>
      by_cases h : hd.1 = k
      · simp [insertA, lookupA, h]
      · simp [insertA, lookupA, h, ih]

theorem lookupA_insertA_ne {α : Type} (m : List (String × α)) (k k0 : String)
    (v : α) (h : k ≠ k0) : lookupA (insertA m k0 v) k = lookupA m k := by
  induction m with
  | nil => simp [insertA, lookupA, Ne.symm h]
  | cons hd tl ih =>
      by_cases h0 : hd.1 = k0
      · simp [insertA, lookupA, h0, Ne.symm h]
      · by_cases h1 : hd.1 = k
        · simp [insertA, lookupA, h0, h1, h]
        · simp [insertA, lookupA, h0, h1, ih]

theorem lookupA_popA_self {α : Type} (m : List (String × α)) (k : String) :
    lookupA (popA m k) k = none := by
  induction m with
  | nil => rfl
  | cons hd tl ih =>
      simp only [popA, List.filter_cons] at ih ⊢
      by_cases h : hd.1 = k
      · simpa [h] using ih
      · simpa [h, lookupA] using ih

@[simp] theorem bindE_ok {ε α β : Type} (a : α) (f : α → Except ε β) :
    (Except.ok a >>= f) = f a := rfl

@[simp] theorem bindE_err {ε α β : Type} (e : ε) (f : α → Except ε β) :
    ((Except.error e : Except ε α) >>= f) = Except.error e := rfl

theorem lookupA_popA_ne {α : Type} (m : List (String × α)) (k k0 : String)
    (h : k ≠ k0) : lookupA (popA m k0) k = lookupA m k := by
  induction m with
  | nil => rfl
  | cons hd tl ih =>
      simp only [popA, List.filter_cons] at ih ⊢
      by_cases h0 : hd.1 = k0
      · simp [h0, lookupA, Ne.symm h, ih]
      · by_cases h1 : hd.1 = k
        · simp [h0, h1, lookupA, h]
        · simp [h0, h1, lookupA, ih]

end Doculens

namespace Doculens

/-- C2: `TaskContext.model_dump` emits exactly the `event`, `nodes` and
`metadata` fields, in that order, and never a `state` key, for every
context (whatever was placed into `state`). -/
theorem taskContext_modelDump_excludes_state (ctx : TaskContext) :
    modelDumpKeys ctx = ["event", "nodes", "metadata"] ∧
    "state" ∉ modelDumpKeys ctx := by
  constructor
  · rfl
  · intro h
    simp [modelDumpKeys, modelDump, taskContextFields] at h

/-- C7: a registered `event_type` resolves to itself with no warning;
an unregistered or missing `event_type` resolves to `"default"` with a
warning. -/
theorem getPipelineType_spec :
    (∀ s : String, (lookupA registryPipelines s).isSome →
        getPipelineType (some s) = (s, false)) ∧
    (∀ s : String, lookupA registryPipelines s = none →
        getPipelineType (some s) = ("default", true)) ∧
    getPipelineType none = ("default", true) := by
  refine ⟨?_, ?_, rfl⟩
  · intro s hs
    simp [getPipelineType, hs]
  · intro s hs
    simp [getPipelineType, hs]

/-- C7 witness: `"qa_query"` is registered and resolves to itself without
a warning; `"bogus"` is unregistered and resolves to `"default"` with a
warning. -/
theorem getPipelineType_spec_witness :
    getPipelineType (some "qa_query") = ("qa_query", false) ∧
    getPipelineType (some "bogus") = ("default", true) :=
  ⟨getPipelineType_spec.1 "qa_query" (by decide),
   getPipelineType_spec.2.1 "bogus" (by decide)⟩

end Doculens

namespace Doculens

/-- C8 counterexample: a `document_summary` event constructed with
`document_id` present but equal to the empty string (and no filename)
fails validation, although the claim says construction with at least one
of the two identifiers present succeeds. -/
theorem documentSummaryEvent_present_empty_fails :
    (DocumentSummaryEventData.mk (some "") none none none).document_id.isSome
      = true ∧
    mkDocumentSummaryEvent (DocumentSummaryEventData.mk (some "") none none none)
      = Except.error (PyErr.validationError
        "Provide at least document_id or filename for document_summary events.") :=
  ⟨rfl, rfl⟩

/-- C8 amended: constructing a `document_summary` event fails validation
exactly when neither `document_id` nor `filename` is truthy (present and
non-empty); with at least one non-empty identifier it succeeds. -/
theorem documentSummaryEvent_validation (d : DocumentSummaryEventData) :
    (truthyS d.document_id = false → truthyS d.filename = false →
      mkDocumentSummaryEvent d = Except.error (PyErr.validationError
        "Provide at least document_id or filename for document_summary events.")) ∧
    (truthyS d.document_id = true ∨ truthyS d.filename = true →
      mkDocumentSummaryEvent d = Except.ok d) := by
  constructor
  · intro h1 h2
    simp [mkDocumentSummaryEvent, h1, h2]
  · intro h
    rcases h with h | h <;> simp [mkDocumentSummaryEvent, h]

/-- C8 witness: a fully absent pair fails, a concrete non-empty
`document_id` succeeds. -/
theorem documentSummaryEvent_validation_witness :
    mkDocumentSummaryEvent (DocumentSummaryEventData.mk none none none none)
      = Except.error (PyErr.validationError
        "Provide at least document_id or filename for document_summary events.") ∧
    mkDocumentSummaryEvent
        (DocumentSummaryEventData.mk (some "doc-1") none none none)
      = Except.ok (DocumentSummaryEventData.mk (some "doc-1") none none none) :=
  ⟨(documentSummaryEvent_validation ⟨none, none, none, none⟩).1 rfl rfl,
   (documentSummaryEvent_validation ⟨some "doc-1", none, none, none⟩).2
     (Or.inl rfl)⟩

/-- C3 counterexample: `ChunkingNode.process`, run on a context whose
event is a `search_query` (not the ingestion pipeline's expected
`document_upload`), completes normally instead of raising: the node never
inspects the event. -/
theorem chunkingNode_ignores_event_variant :
    (EventSchema.searchQuery ⟨"q", none, none⟩).eventType ≠ "document_upload" ∧
    isOkE (chunkingProcess (fun _ => [])
      ⟨EventSchema.searchQuery ⟨"q", none, none⟩, [], [],
       [("docling_doc", StateV.doclingDoc ⟨[]⟩)]⟩) = true :=
  ⟨by decide, rfl⟩

/-- C3 amended: every node that reads the event — ExtractionNode,
SemanticSearchNode, DocumentClassificationNode, InformationExtractionNode,
DocumentRoutingNode, DocumentSummaryNode, QAQueryNode — validates the
event variant first and raises a ValueError on a mismatch before any
other work; ChunkingNode and EmbeddingNode read only `state` and perform
no event check. -/
theorem event_checking_nodes_fail_fast :
    (∀ (o : ExtractionOracle) (ctx : TaskContext),
        ctx.event.eventType ≠ "document_upload" →
        ∃ m, extractionProcess o ctx = Except.error (PyErr.valueError m)) ∧
    (∀ (s : Settings) (search : Int → List Val) (ctx : TaskContext),
        ctx.event.eventType ≠ "search_query" →
        ∃ m, searchProcess s search ctx = Except.error (PyErr.valueError m)) ∧
    (∀ (o : LLMCall ClassificationResponse) (ctx : TaskContext),
        ctx.event.eventType ≠ "document_classification" →
        ∃ m, classificationProcess o ctx = Except.error (PyErr.valueError m)) ∧
    (∀ (o : LLMCall ExtractionResponse) (ctx : TaskContext),
        ctx.event.eventType ≠ "information_extraction" →
        ∃ m, informationExtractionProcess o ctx
          = Except.error (PyErr.valueError m)) ∧
    (∀ (o : LLMCall RoutingResponse) (ctx : TaskContext),
        ctx.event.eventType ≠ "document_routing" →
        ∃ m, routingProcess o ctx = Except.error (PyErr.valueError m)) ∧
    (∀ (o : SummaryOracle) (ctx : TaskContext),
        ctx.event.eventType ≠ "document_summary" →
        ∃ m, summaryProcess o ctx = Except.error (PyErr.valueError m)) ∧
    (∀ (s : Settings) (o : QAOracle) (ctx : TaskContext),
        ctx.event.eventType ≠ "qa_query" →
        ∃ m, qaProcess s o ctx = Except.error (PyErr.valueError m)) := by
  refine ⟨?_, ?_, ?_, ?_, ?_, ?_, ?_⟩
  · intro o ctx h
    obtain ⟨ev, nds, md, st⟩ := ctx
    cases ev <;>
      first
        | exact ⟨_, rfl⟩
        | simp [EventSchema.eventType] at h
  · intro s search ctx h
    obtain ⟨ev, nds, md, st⟩ := ctx
    cases ev <;>
      first
        | exact ⟨_, rfl⟩
        | simp [EventSchema.eventType] at h
  · intro o ctx h
    obtain ⟨ev, nds, md, st⟩ := ctx
    cases ev <;>
      first
        | exact ⟨_, rfl⟩
        | simp [EventSchema.eventType] at h
  · intro o ctx h
    obtain ⟨ev, nds, md, st⟩ := ctx
    cases ev <;>
      first
        | exact ⟨_, rfl⟩
        | simp [EventSchema.eventType] at h
  · intro o ctx h
    obtain ⟨ev, nds, md, st⟩ := ctx
    cases ev <;>
      first
        | exact ⟨_, rfl⟩
        | simp [EventSchema.eventType] at h
  · intro o ctx h
    obtain ⟨ev, nds, md, st⟩ := ctx
    cases ev <;>
      first
        | exact ⟨_, rfl⟩
        | simp [EventSchema.eventType] at h
  · intro s o ctx h
    obtain ⟨ev, nds, md, st⟩ := ctx
    cases ev <;>
      first
        | exact ⟨_, rfl⟩
        | simp [EventSchema.eventType] at h

/-- C3 witness: each event-checking node raises on a concrete
wrong-variant context. -/
theorem event_checking_nodes_fail_fast_witness :
    (∃ m, extractionProcess ⟨"id", true, true, id, fun _ => none⟩
        ⟨EventSchema.qaQuery ⟨"q", none, none⟩, [], [], []⟩
      = Except.error (PyErr.valueError m)) ∧
    (∃ m, searchProcess defaultSettings (fun _ => [])
        ⟨EventSchema.qaQuery ⟨"q", none, none⟩, [], [], []⟩
      = Except.error (PyErr.valueError m)) ∧
    (∃ m, classificationProcess ⟨none, none, none⟩
        ⟨EventSchema.qaQuery ⟨"q", none, none⟩, [], [], []⟩
      = Except.error (PyErr.valueError m)) ∧
    (∃ m, informationExtractionProcess ⟨none, none, none⟩
        ⟨EventSchema.qaQuery ⟨"q", none, none⟩, [], [], []⟩
      = Except.error (PyErr.valueError m)) ∧
    (∃ m, routingProcess ⟨none, none, none⟩
        ⟨EventSchema.qaQuery ⟨"q", none, none⟩, [], [], []⟩
      = Except.error (PyErr.valueError m)) ∧
    (∃ m, summaryProcess ⟨[], none, none, none⟩
        ⟨EventSchema.qaQuery ⟨"q", none, none⟩, [], [], []⟩
      = Except.error (PyErr.valueError m)) ∧
    (∃ m, qaProcess defaultSettings ⟨fun _ => [], none, none, none⟩
        ⟨EventSchema.searchQuery ⟨"q", none, none⟩, [], [], []⟩
      = Except.error (PyErr.valueError m)) :=
  ⟨event_checking_nodes_fail_fast.1 _ _ (by decide),
   event_checking_nodes_fail_fast.2.1 _ _ _ (by decide),
   event_checking_nodes_fail_fast.2.2.1 _ _ (by decide),
   event_checking_nodes_fail_fast.2.2.2.1 _ _ (by decide),
   event_checking_nodes_fail_fast.2.2.2.2.1 _ _ (by decide),
   event_checking_nodes_fail_fast.2.2.2.2.2.1 _ _ (by decide),
   event_checking_nodes_fail_fast.2.2.2.2.2.2 _ _ _ (by decide)⟩

end Doculens

namespace Doculens

theorem bindE_eq_ok {ε α β : Type} {x : Except ε α} {f : α → Except ε β}
    {b : β} (h : x >>= f = Except.ok b) :
    ∃ a, x = Except.ok a ∧ f a = Except.ok b := by
  cases x with
  | ok a => exact ⟨a, rfl, h⟩
  | error e => simp [bindE_err] at h

/-- C6 counterexample: `EmbeddingNode.process`, run on a context whose
`state` has no `chunks` entry, completes normally — missing chunks default
to an empty list, `embed_and_upsert_chunks` returns immediately, and the
node records zero embedded chunks instead of raising. -/
theorem embeddingNode_missing_chunks_completes :
    embeddingProcess ⟨"id-0", true, fun _ => "", id, fun _ => 0, fun _ => ""⟩
      ⟨EventSchema.documentUpload ⟨"f.pdf", "http://x", none, []⟩, [], [], []⟩
    = Except.ok
      ⟨EventSchema.documentUpload ⟨"f.pdf", "http://x", none, []⟩,
       [("EmbeddingNode", Val.dict
          [("embedded_chunks", Val.int 0),
           ("vector_ids", Val.list []),
           ("vector_ids_truncated", Val.bool false)])],
       [("document", Val.dict
          [("id", Val.str "id-0"),
           ("vector_ids", Val.list []),
           ("embedded_chunk_count", Val.int 0)])],
       []⟩ := rfl

/-- C6 amended: ChunkingNode raises a ValueError when `state` has no
`docling_doc` entry; EmbeddingNode, by contrast, treats a missing `chunks`
entry as an empty list and completes normally with zero embedded chunks
(whenever `metadata.document` is absent or a dictionary). -/
theorem ingestionNodes_missing_artifact_behavior :
    (∀ (chunker : DoclingDoc → List Chunk) (ctx : TaskContext),
        lookupA ctx.state "docling_doc" = none →
        chunkingProcess chunker ctx = Except.error (PyErr.valueError
          "Cannot chunk a null document. Ensure extraction succeeded.")) ∧
    (∀ (o : EmbedOracle) (ctx : TaskContext),
        lookupA ctx.state "chunks" = none →
        (lookupA ctx.metadata "document" = none ∨
          ∃ d, lookupA ctx.metadata "document" = some (Val.dict d)) →
        ∃ c2, embeddingProcess o ctx = Except.ok c2 ∧
          lookupA c2.nodes "EmbeddingNode" = some (Val.dict
            [("embedded_chunks", Val.int 0),
             ("vector_ids", Val.list []),
             ("vector_ids_truncated", Val.bool false)])) := by
  constructor
  · intro chunker ctx h
    simp [chunkingProcess, h, chunkDocument]
  · intro o ctx h hd
    rcases hd with hd | ⟨d, hd⟩ <;>
    · simp only [embeddingProcess, h, hd, bindE_ok]
      refine ⟨_, rfl, ?_⟩
      simpa using lookupA_insertA_self ctx.nodes "EmbeddingNode" _

/-- C6 witness: the chunking half of the amended statement at a concrete
empty-state context. -/
theorem ingestionNodes_missing_artifact_behavior_witness :
    chunkingProcess (fun _ => [])
        ⟨EventSchema.documentUpload ⟨"f.pdf", "http://x", none, []⟩, [], [], []⟩
      = Except.error (PyErr.valueError
        "Cannot chunk a null document. Ensure extraction succeeded.") ∧
    (∃ c2, embeddingProcess ⟨"id-0", true, fun _ => "", id, fun _ => 0, fun _ => ""⟩
        ⟨EventSchema.documentUpload ⟨"f.pdf", "http://x", none, []⟩, [], [], []⟩
      = Except.ok c2 ∧
      lookupA c2.nodes "EmbeddingNode" = some (Val.dict
        [("embedded_chunks", Val.int 0),
         ("vector_ids", Val.list []),
         ("vector_ids_truncated", Val.bool false)])) :=
  ⟨ingestionNodes_missing_artifact_behavior.1 (fun _ => []) _ rfl,
   ingestionNodes_missing_artifact_behavior.2 _ _ rfl (Or.inl rfl)⟩

/-- C9: after a successful `EmbeddingNode.process`, `state` holds neither
`chunks` nor `docling_doc`, and every other state entry is untouched. -/
theorem embeddingNode_state_cleanup (o : EmbedOracle) (ctx c2 : TaskContext)
    (h : embeddingProcess o ctx = Except.ok c2) :
    lookupA c2.state "chunks" = none ∧
    lookupA c2.state "docling_doc" = none ∧
    ∀ k, k ≠ "chunks" → k ≠ "docling_doc" →
      lookupA c2.state k = lookupA ctx.state k := by
  have hst : c2.state = popA (popA ctx.state "chunks") "docling_doc" := by
    unfold embeddingProcess at h
    rcases hmd : lookupA ctx.metadata "document" with _ | v
    · rw [hmd] at h
      simp only [bindE_ok] at h
      obtain ⟨ss, _, hfa⟩ := bindE_eq_ok h
      simp only [Except.ok.injEq] at hfa
      rw [← hfa]
    · rw [hmd] at h
      cases v with
      | dict d =>
          simp only [bindE_ok] at h
          obtain ⟨ss, _, hfa⟩ := bindE_eq_ok h
          simp only [Except.ok.injEq] at hfa
          rw [← hfa]
      | null => simp at h
      | str s => simp at h
      | int n => simp at h
      | bool b => simp at h
      | list xs => simp at h
  refine ⟨?_, ?_, ?_⟩
  · rw [hst, lookupA_popA_ne _ _ _ (by decide), lookupA_popA_self]
  · rw [hst, lookupA_popA_self]
  · intro k hk1 hk2
    rw [hst, lookupA_popA_ne _ _ _ hk2, lookupA_popA_ne _ _ _ hk1]

/-- C9 witness: the cleanup property at a concrete context whose state
also carries an unrelated entry that survives. -/
theorem embeddingNode_state_cleanup_witness :
    lookupA
      (match embeddingProcess
          ⟨"id-0", true, fun _ => "", id, fun _ => 0, fun _ => ""⟩
          ⟨EventSchema.documentUpload ⟨"f.pdf", "http://x", none, []⟩, [], [],
           [("docling_doc", StateV.doclingDoc ⟨[]⟩),
            ("local_path", StateV.str "p"),
            ("chunks", StateV.chunks [])]⟩ with
        | Except.ok c2 => c2.state
        | Except.error _ => []) "local_path" = some (StateV.str "p") ∧
    lookupA
      (match embeddingProcess
          ⟨"id-0", true, fun _ => "", id, fun _ => 0, fun _ => ""⟩
          ⟨EventSchema.documentUpload ⟨"f.pdf", "http://x", none, []⟩, [], [],
           [("docling_doc", StateV.doclingDoc ⟨[]⟩),
            ("local_path", StateV.str "p"),
            ("chunks", StateV.chunks [])]⟩ with
        | Except.ok c2 => c2.state
        | Except.error _ => [("chunks", StateV.chunks [])]) "chunks" = none := by
  have h := embeddingNode_state_cleanup
    ⟨"id-0", true, fun _ => "", id, fun _ => 0, fun _ => ""⟩
    ⟨EventSchema.documentUpload ⟨"f.pdf", "http://x", none, []⟩, [], [],
     [("docling_doc", StateV.doclingDoc ⟨[]⟩),
      ("local_path", StateV.str "p"),
      ("chunks", StateV.chunks [])]⟩
    _ rfl
  exact ⟨by simpa using h.2.2 "local_path" (by decide) (by decide), by simpa using h.1⟩

end Doculens

namespace Doculens

/-- C10: for every `search_query` event, the SemanticSearchNode result
reports `result_count` equal to the number of results returned by the
search at the computed limit, its `preview` is the first
`search_preview_limit` results, and `results_truncated` is true exactly
when the preview is shorter than the full result list. -/
theorem searchNode_result_counts (settings : Settings)
    (search : Int → List Val) (ctx : TaskContext) (e : SearchQueryEvent)
    (L : Int) (hev : ctx.event = EventSchema.searchQuery e)
    (hL : L = orI e.limit (Int.ofNat settings.search_result_limit)) :
    ∃ c2, searchProcess settings search ctx = Except.ok c2 ∧
      lookupA c2.nodes "SemanticSearchNode" = some (Val.dict
        [("query", Val.str e.query),
         ("filters", optDictVal e.filters),
         ("result_count", Val.int (Int.ofNat (search L).length)),
         ("preview", Val.list ((search L).take settings.search_preview_limit)),
         ("results_truncated", Val.bool
           (decide (((search L).take settings.search_preview_limit).length
             < (search L).length))),
         ("limit", Val.int L)]) ∧
      ((decide (((search L).take settings.search_preview_limit).length
          < (search L).length)) = true ↔
        ((search L).take settings.search_preview_limit).length
          < (search L).length) := by
  subst hL
  obtain ⟨ev, nds, md, st⟩ := ctx
  simp only at hev
  subst hev
  exact ⟨_, rfl,
    by simpa using lookupA_insertA_self nds "SemanticSearchNode" _,
    by simp⟩

/-- C10 witness: a concrete search returning seven results with the
default preview limit of five yields `result_count` 7, a five-element
preview, and `results_truncated = true`. -/
theorem searchNode_result_counts_witness :
    ∃ c2, searchProcess defaultSettings
        (fun _ => [Val.int 1, Val.int 2, Val.int 3, Val.int 4, Val.int 5,
                   Val.int 6, Val.int 7])
        ⟨EventSchema.searchQuery ⟨"refund policy", none, some 3⟩, [], [], []⟩
      = Except.ok c2 ∧
      lookupA c2.nodes "SemanticSearchNode" = some (Val.dict
        [("query", Val.str "refund policy"),
         ("filters", optDictVal none),
         ("result_count", Val.int 7),
         ("preview", Val.list [Val.int 1, Val.int 2, Val.int 3, Val.int 4,
                               Val.int 5]),
         ("results_truncated", Val.bool true),
         ("limit", Val.int 3)]) := by
  have h := searchNode_result_counts defaultSettings
    (fun _ => [Val.int 1, Val.int 2, Val.int 3, Val.int 4, Val.int 5,
               Val.int 6, Val.int 7])
    ⟨EventSchema.searchQuery ⟨"refund policy", none, some 3⟩, [], [], []⟩
    ⟨"refund policy", none, some 3⟩ 3 rfl (by decide)
  obtain ⟨c2, h1, h2, _⟩ := h
  exact ⟨c2, h1, by simpa using h2⟩

end Doculens

namespace Doculens

/-- C5: QAQueryNode raises when the semantic search returns zero matches;
with K > 0 matches (and a successful completion) it succeeds and the node
result's `chunk_references` is exactly the K retrieved records mapped
through `mkRetrievedChunk`/`qaRefDict` in order, so it has length K and
each reference derives from the record at its position. -/
theorem qaNode_chunk_references (settings : Settings) (o : QAOracle)
    (ctx : TaskContext) (e : QAQueryEvent) (topK : Int)
    (hev : ctx.event = EventSchema.qaQuery e)
    (htop : topK = orI e.top_k ((settings.qa_top_k : Int))) :
    (o.search topK = [] →
      qaProcess settings o ctx = Except.error (PyErr.valueError
        "No semantic matches found for the supplied question. Ensure embeddings exist.")) ∧
    (∀ (r : QAResponse) (c0 : ChunkRecord) (rest : List ChunkRecord),
      o.llmResponse = some r → o.search topK = c0 :: rest →
      ∃ c2, qaProcess settings o ctx = Except.ok c2 ∧
        lookupA c2.nodes "QAQueryNode" = some (Val.dict
          [("answer", Val.str r.answer),
           ("reasoning", optStrVal r.reasoning),
           ("citations", Val.list (r.citations.map Val.str)),
           ("confidence", r.confidence),
           ("chunk_references", Val.list ((c0 :: rest).enum.map
             (fun p => qaRefDict (mkRetrievedChunk p.1 p.2))))]) ∧
        ((c0 :: rest).enum.map
          (fun p => qaRefDict (mkRetrievedChunk p.1 p.2))).length
          = (c0 :: rest).length) := by
  subst htop
  obtain ⟨ev, nds, md, st⟩ := ctx
  simp only at hev
  subst hev
  constructor
  · intro hres
    simp [qaProcess, qaGetContext, requireQAQueryEvent, hres]
  · intro r c0 rest hr hres
    refine ⟨⟨EventSchema.qaQuery e,
      insertA (insertA nds "QAQueryNode"
        (llmNodeResult (Val.dict (dumpQAResponseEntries r)) o.rawModel o.usage))
        "QAQueryNode" (Val.dict
          [("answer", Val.str r.answer),
           ("reasoning", optStrVal r.reasoning),
           ("citations", Val.list (r.citations.map Val.str)),
           ("confidence", r.confidence),
           ("chunk_references", Val.list ((c0 :: rest).enum.map
             (fun p => qaRefDict (mkRetrievedChunk p.1 p.2))))]),
      insertA md "qa" (Val.dict (insertA (dumpQAResponseEntries r) "used_chunks"
        (Val.list (((c0 :: rest).enum.map
          (fun p => mkRetrievedChunk p.1 p.2)).map
            (fun c => Val.str c.reference))))),
      popA (insertA st "qa_chunks" (StateV.qaChunks ((c0 :: rest).enum.map
        (fun p => mkRetrievedChunk p.1 p.2)))) "qa_chunks"⟩, ?_, ?_, by simp⟩
    · simp [qaProcess, qaGetContext, requireQAQueryEvent, hres, hr,
        qaAfterCompletion, lookupA_insertA_self, Function.comp]
      rfl
    · simpa using lookupA_insertA_self
        (insertA nds "QAQueryNode"
          (llmNodeResult (Val.dict (dumpQAResponseEntries r)) o.rawModel o.usage))
        "QAQueryNode" _

end Doculens

namespace Doculens

/-- C5 witness: two concrete retrieved records yield exactly two chunk
references, one via the stored reference, one via the fallback. -/
theorem qaNode_chunk_references_witness :
    ∃ c2, qaProcess defaultSettings
        ⟨fun _ =>
          [⟨"id1", ⟨some "d1", some "f1", none, none, some "ref-1",
             some (ChunkIdx.intIdx 0)⟩, "text1"⟩,
           ⟨"id2", ⟨some "d2", none, none, none, none,
             some (ChunkIdx.strIdx "7")⟩, "text2"⟩],
         some ⟨"ans", some "because", Val.null, ["ref-1"]⟩, none, none⟩
        ⟨EventSchema.qaQuery ⟨"q", some 2, none⟩, [], [], []⟩
      = Except.ok c2 ∧
      lookupA c2.nodes "QAQueryNode" = some (Val.dict
        [("answer", Val.str "ans"),
         ("reasoning", Val.str "because"),
         ("citations", Val.list [Val.str "ref-1"]),
         ("confidence", Val.null),
         ("chunk_references", Val.list
           [Val.dict [("reference", Val.str "ref-1"),
                      ("document_id", Val.str "d1"),
                      ("filename", Val.str "f1"),
                      ("chunk_index", Val.int 0)],
            Val.dict [("reference", Val.str "d2#chunk-7"),
                      ("document_id", Val.str "d2"),
                      ("filename", Val.null),
                      ("chunk_index", Val.int 7)]])]) := by
  obtain ⟨c2, h1, h2, _⟩ := (qaNode_chunk_references defaultSettings
    ⟨fun _ =>
      [⟨"id1", ⟨some "d1", some "f1", none, none, some "ref-1",
         some (ChunkIdx.intIdx 0)⟩, "text1"⟩,
       ⟨"id2", ⟨some "d2", none, none, none, none,
         some (ChunkIdx.strIdx "7")⟩, "text2"⟩],
     some ⟨"ans", some "because", Val.null, ["ref-1"]⟩, none, none⟩
    ⟨EventSchema.qaQuery ⟨"q", some 2, none⟩, [], [], []⟩
    ⟨"q", some 2, none⟩ 2 rfl (by decide)).2
    ⟨"ans", some "because", Val.null, ["ref-1"]⟩
    ⟨"id1", ⟨some "d1", some "f1", none, none, some "ref-1",
       some (ChunkIdx.intIdx 0)⟩, "text1"⟩
    [⟨"id2", ⟨some "d2", none, none, none, none,
       some (ChunkIdx.strIdx "7")⟩, "text2"⟩]
    rfl rfl
  refine ⟨c2, h1, ?_⟩
  rw [h2]
  rfl

end Doculens

namespace Doculens

/-- C4 counterexample: with one stored chunk (N = 1 > 0) but no document
id resolvable from either the event or the chunk metadata, the summary
node does not succeed — building the pydantic `ContextModel` (required
`str` field `document_id`) raises a validation error, so no sentinel-keyed
entry is ever written. -/
theorem summaryNode_unresolvable_id_fails :
    summaryProcess
      ⟨[⟨"c1", ⟨none, none, none, none, none, none⟩, "text"⟩],
       some ⟨"sum", [], none⟩, none, none⟩
      ⟨EventSchema.documentSummary ⟨none, some "report.pdf", none, none⟩,
       [], [], []⟩
    = Except.error (PyErr.validationError
        "document_id: input should be a valid string") := rfl

/-- C4 amended: the summary node fails on a zero-chunk fetch; with N > 0
chunks it fails with a validation error when no document id resolves from
the event or the first chunk, and succeeds otherwise (given a successful
completion), writing exactly one `document_summaries` entry keyed by the
resolved key (the sentinel `"latest"` only for empty-string ids). -/
theorem summaryNode_document_summaries (o : SummaryOracle)
    (ctx : TaskContext) (e : DocumentSummaryEventData)
    (hev : ctx.event = EventSchema.documentSummary e) :
    (o.fetched = [] →
      summaryProcess o ctx = Except.error (PyErr.valueError
        "No chunks found for requested document; run ingestion first.")) ∧
    (∀ (c0 : ChunkRecord) (rest : List ChunkRecord),
      o.fetched = c0 :: rest →
      orS e.document_id c0.metadata.document_id = none →
      summaryProcess o ctx = Except.error (PyErr.validationError
        "document_id: input should be a valid string")) ∧
    (∀ (c0 : ChunkRecord) (rest : List ChunkRecord) (did : String)
        (r : SummaryResponse),
      o.fetched = c0 :: rest →
      orS e.document_id c0.metadata.document_id = some did →
      o.llmResponse = some r →
      lookupA ctx.metadata "document_summaries" = none →
      ∃ c2 payload, summaryProcess o ctx = Except.ok c2 ∧
        lookupA c2.metadata "document_summaries"
          = some (Val.dict [(summaryResolvedKey e (c0 :: rest), payload)])) := by
  obtain ⟨ev, nds, md, st⟩ := ctx
  simp only at hev
  subst hev
  refine ⟨?_, ?_, ?_⟩
  · intro hres
    simp [summaryProcess, summaryGetContext, requireDocumentSummaryEvent, hres]
  · intro c0 rest hres horS
    simp [summaryProcess, summaryGetContext, requireDocumentSummaryEvent,
      hres, horS]
  · intro c0 rest did r hres horS hr hsum
    refine ⟨⟨EventSchema.documentSummary e,
      insertA (insertA nds "DocumentSummaryNode"
        (llmNodeResult (Val.dict (dumpSummaryResponseEntries r))
          o.rawModel o.usage))
        "DocumentSummaryNode" (Val.dict
          [("summary", Val.str r.summary),
           ("bullet_points", Val.list (r.bullet_points.map Val.str)),
           ("next_steps", optStrListVal r.next_steps),
           ("source_chunks", Val.list
             (((c0 :: rest).take 5).map summarySourceChunk))]),
      insertA md "document_summaries" (Val.dict
        [(summaryResolvedKey e (c0 :: rest),
          Val.dict (setdefaultA (setdefaultA (setdefaultA
            (dumpSummaryResponseEntries r ++
              [("source_chunk_count", Val.int (Int.ofNat (c0 :: rest).length))])
            "doc_type" (optStrVal (orS e.doc_type c0.metadata.doc_type)))
            "filename" (optStrVal (orS e.filename
              (orS c0.metadata.original_filename c0.metadata.filename))))
            "document_id" (Val.str did)))]),
      popA (popA (insertA (insertA st "summary_chunks"
        (StateV.summaryChunks (c0 :: rest)))
        "summary_context" (StateV.summaryCtx
          ⟨did, orS e.doc_type c0.metadata.doc_type,
           orS e.filename
             (orS c0.metadata.original_filename c0.metadata.filename),
           (c0 :: rest).map (fun x => x.contents)⟩))
        "summary_chunks") "summary_context"⟩,
      Val.dict (setdefaultA (setdefaultA (setdefaultA
        (dumpSummaryResponseEntries r ++
          [("source_chunk_count", Val.int (Int.ofNat (c0 :: rest).length))])
        "doc_type" (optStrVal (orS e.doc_type c0.metadata.doc_type)))
        "filename" (optStrVal (orS e.filename
          (orS c0.metadata.original_filename c0.metadata.filename))))
        "document_id" (Val.str did)), ?_, ?_⟩
    · simp [summaryProcess, summaryGetContext, requireDocumentSummaryEvent,
        hres, horS, hr, summaryAfterCompletion, hsum,
        lookupA_insertA_self, lookupA_insertA_ne, lookupA_popA_ne,
        summaryResolvedKey, insertA_nil]
    · simpa using lookupA_insertA_self md "document_summaries" _

end Doculens

namespace Doculens

/-- C4 witness: a zero-chunk fetch fails, and a one-chunk fetch with the
event carrying `document_id = "doc-9"` yields exactly one summary entry
keyed `"doc-9"`. -/
theorem summaryNode_document_summaries_witness :
    summaryProcess ⟨[], some ⟨"sum", [], none⟩, none, none⟩
        ⟨EventSchema.documentSummary ⟨some "doc-9", none, none, none⟩,
         [], [], []⟩
      = Except.error (PyErr.valueError
        "No chunks found for requested document; run ingestion first.") ∧
    (∃ c2 payload, summaryProcess
        ⟨[⟨"c1", ⟨some "doc-9", none, none, none, none, none⟩, "text"⟩],
         some ⟨"sum", ["b1"], none⟩, none, none⟩
        ⟨EventSchema.documentSummary ⟨some "doc-9", none, none, none⟩,
         [], [], []⟩
      = Except.ok c2 ∧
      lookupA c2.metadata "document_summaries"
        = some (Val.dict [("doc-9", payload)])) := by
  constructor
  · exact (summaryNode_document_summaries
      ⟨[], some ⟨"sum", [], none⟩, none, none⟩
      ⟨EventSchema.documentSummary ⟨some "doc-9", none, none, none⟩,
       [], [], []⟩ ⟨some "doc-9", none, none, none⟩ rfl).1 rfl
  · obtain ⟨c2, payload, h1, h2⟩ := (summaryNode_document_summaries
      ⟨[⟨"c1", ⟨some "doc-9", none, none, none, none, none⟩, "text"⟩],
       some ⟨"sum", ["b1"], none⟩, none, none⟩
      ⟨EventSchema.documentSummary ⟨some "doc-9", none, none, none⟩,
       [], [], []⟩ ⟨some "doc-9", none, none, none⟩ rfl).2.2
      ⟨"c1", ⟨some "doc-9", none, none, none, none, none⟩, "text"⟩ []
      "doc-9" ⟨"sum", ["b1"], none⟩ rfl rfl rfl rfl
    exact ⟨c2, payload, h1, h2⟩

theorem embedAndUpsertChunks_ok (o : EmbedOracle) (ho : o.embedOk = true)
    (cs : List Chunk) (did : Val) (dmeta : List (String × Val)) :
    ∃ ss, embedAndUpsertChunks o cs did dmeta = Except.ok ss ∧
      ss.length = cs.length := by
  cases cs with
  | nil => exact ⟨[], rfl, rfl⟩
  | cons c cs' =>
      refine ⟨((c :: cs').enum).map
        (fun p => mkChunkSummary o did dmeta p.1 p.2), ?_, ?_⟩
      · simp [embedAndUpsertChunks, ho]
      · simp

/-- C1: running the ingestion pipeline on a valid document_upload event
(non-empty filename and file URL), with every external call succeeding,
yields a context whose `nodes` has exactly the three node keys in order,
and whose `metadata.document` carries equal `chunk_count` and
`embedded_chunk_count`. -/
theorem ingestion_pipeline_counts (oE : ExtractionOracle)
    (chunker : DoclingDoc → List Chunk) (oM : EmbedOracle)
    (e : DocumentUploadEvent) (docOf : String → DoclingDoc)
    (hurl : e.file_url.isEmpty = false)
    (hfn : e.filename.isEmpty = false)
    (hdl : oE.downloadOk = true)
    (hfresh : oE.freshId.isEmpty = false)
    (hembed : oM.embedOk = true)
    (hext : ∀ p, oE.extractResult p = some (docOf p)) :
    ∃ c2, runDoculensDocumentPipeline oE chunker oM
        (EventSchema.documentUpload e) = Except.ok c2 ∧
      c2.nodes.map Prod.fst
        = ["ExtractionNode", "ChunkingNode", "EmbeddingNode"] ∧
      ∃ dm n, lookupA c2.metadata "document" = some (Val.dict dm) ∧
        lookupA dm "chunk_count" = some (Val.int n) ∧
        lookupA dm "embedded_chunk_count" = some (Val.int n) := by
  obtain ⟨ss, hss, hlen⟩ := embedAndUpsertChunks_ok oM hembed
    (chunker (docOf (ingestionDir ++ "/" ++ oE.freshId ++ "_"
      ++ pathName e.filename)))
    (Val.str oE.freshId)
    [("doc_type", optStrVal e.doc_type),
     ("original_filename", Val.str (pathName e.filename))]
  simp [runDoculensDocumentPipeline, extractionProcess,
    requireDocumentUploadEvent, extractionDocId, chunkingProcess,
    chunkDocument, embeddingProcess, lookupA, insertA, popA, pyStr,
    valTruthy, hurl, hfn, hdl, hfresh, hext, hss, hlen]

end Doculens

namespace Doculens

/-- C1 witness: a concrete single-chunk run through the three-node
ingestion pipeline with all external calls succeeding. -/
theorem ingestion_pipeline_counts_witness :
    ∃ c2, runDoculensDocumentPipeline
        ⟨"abc", true, true, id, fun _ => some ⟨[0]⟩⟩
        (fun _ => [⟨"hello world", ⟨none, [], []⟩⟩])
        ⟨"m", true, fun _ => "v", id, fun _ => 3, fun _ => "c"⟩
        (EventSchema.documentUpload ⟨"f.pdf", "http://x", none, []⟩)
      = Except.ok c2 ∧
      c2.nodes.map Prod.fst
        = ["ExtractionNode", "ChunkingNode", "EmbeddingNode"] ∧
      ∃ dm n, lookupA c2.metadata "document" = some (Val.dict dm) ∧
        lookupA dm "chunk_count" = some (Val.int n) ∧
        lookupA dm "embedded_chunk_count" = some (Val.int n) :=
  ingestion_pipeline_counts ⟨"abc", true, true, id, fun _ => some ⟨[0]⟩⟩
    (fun _ => [⟨"hello world", ⟨none, [], []⟩⟩])
    ⟨"m", true, fun _ => "v", id, fun _ => 3, fun _ => "c"⟩
    ⟨"f.pdf", "http://x", none, []⟩ (fun _ => ⟨[0]⟩)
    rfl rfl rfl rfl rfl (fun _ => rfl)

end Doculens
